import Mathlib

/-!
Verification development for the zypherbackend synthetic market-data engine.

The definitions below are a shallow embedding of `src/services/candleGenerator.ts`
(hyper-realistic generator, plus the original generator), `src/services/tradingService.ts`
and `src/routes/tradingview.ts`.  JavaScript numbers are modelled as rationals; each
`Math.random()` call site is modelled as an explicit oracle value (a rational, intended
to lie in `[0,1)`); `Date.now()` is an explicit `now` parameter.
-/

namespace Zypher

/-- Candle mode tag: `'auto' | 'manual'`. -/
inductive Mode where
  | auto
  | manual
deriving DecidableEq

/-- Manual control direction: `'up' | 'down' | 'neutral'`. -/
inductive Dir3 where
  | up
  | down
  | neutral
deriving DecidableEq

/-- Market regime: `'accumulation' | 'markup' | 'distribution' | 'markdown'`. -/
inductive Regime where
  | accumulation
  | markup
  | distribution
  | markdown
deriving DecidableEq

/-- The cyclic successor used by `updateMarketRegime`. -/
def nextRegime : Regime → Regime
  | .accumulation => .markup
  | .markup => .distribution
  | .distribution => .markdown
  | .markdown => .accumulation

/-- `interface Candle` (src/types/trading.ts); timestamps in ms. -/
structure Candle where
  symbol : String
  timestamp : ℤ
  open_ : ℚ
  high : ℚ
  low : ℚ
  close : ℚ
  volume : ℚ
  mode : Mode
  resolution : String
deriving DecidableEq

/-- `interface SupportResistanceLevel` (candleGenerator.ts). -/
structure SRLevel where
  price : ℚ
  strength : ℚ
  touches : ℕ
  lastTouch : ℚ
deriving DecidableEq

/-- The mutable instance fields of the hyper-realistic `CandleGenerator`. -/
structure GenState where
  basePrice : ℚ
  volatility : ℚ
  trendStrength : ℚ
  volumeBase : ℚ
  currentTrend : ℚ
  lastPrice : ℚ
  marketRegime : Regime
  regimeStartTime : ℚ
  regimeCandleCount : ℕ
  supportResistanceLevels : List SRLevel
  recentHighs : List ℚ
  recentLows : List ℚ
  volatilityHistory : List ℚ
  consolidationCounter : ℕ
  eventCooldown : ℕ
deriving DecidableEq

/-- `interface CandleGenerationParams`. -/
structure GenParams where
  previousCandle : Option Candle := none
  basePrice : Option ℚ := none
  volatility : Option ℚ := none
  trendStrength : Option ℚ := none
  volumeBase : Option ℚ := none
  manualDirection : Option Dir3 := none
  manualSpeed : Option ℚ := none
  manualIntensity : Option ℚ := none
deriving DecidableEq

/-- One oracle value per `Math.random()` call site in a generation step. -/
structure GenRands where
  rEvent : ℚ := 1
  rEventType : ℚ := 0
  rEventCooldown : ℚ := 0
  rEventSize : ℚ := 0
  rShouldTrend : ℚ := 0
  rMove : ℚ := 0
  srRands : List (ℚ × ℚ) := []
  rWickMult : ℚ := 0
  rHighWick : ℚ := 0
  rLowWick : ℚ := 0
  rVolume : ℚ := 0
  rRegime1 : ℚ := 1
  rRegime2 : ℚ := 1
deriving DecidableEq

/-- `roundPrice`: `Math.round(price * PRICE_SCALE) / PRICE_SCALE` with `PRICE_SCALE = 100`;
JS `Math.round x = ⌊x + 1/2⌋`. -/
def roundPrice (price : ℚ) : ℚ :=
  ((⌊price * 100 + 1/2⌋ : ℤ) : ℚ) / 100

/-- `roundVolume`: `Math.round(volume * 100) / 100`. -/
def roundVolume (volume : ℚ) : ℚ :=
  ((⌊volume * 100 + 1/2⌋ : ℤ) : ℚ) / 100

/-- Array push followed by `if (length > n) shift()` — the bounded-history pattern used
for `recentHighs`, `recentLows` and `volatilityHistory`. -/
def pushBounded (n : ℕ) (x : ℚ) (l : List ℚ) : List ℚ :=
  let l' := l ++ [x]
  if l'.length > n then l'.tail else l'

/-- JS `arr.slice(-n)`: the last `n` elements. -/
def takeLastN (n : ℕ) (l : List α) : List α :=
  l.drop (l.length - n)

/-- `calculateManualChange`: `currentPrice * dir * speed * intensity`,
`dir = direction === 'up' ? 1 : -1`. -/
def calculateManualChange (currentPrice : ℚ) (direction : Dir3) (speed intensity : ℚ) : ℚ :=
  let dir : ℚ := if direction = Dir3.up then 1 else -1
  currentPrice * dir * speed * intensity

/-- `getAverageVolatility`. -/
def getAverageVolatility (s : GenState) : ℚ :=
  if s.volatilityHistory.isEmpty then s.volatility
  else (s.volatilityHistory.foldl (· + ·) 0) / (s.volatilityHistory.length : ℚ)

/-- `getMovingAverage`: mean of the last 50 entries of `recentHighs ++ recentLows`. -/
def getMovingAverage (s : GenState) : ℚ :=
  let prices := s.recentHighs ++ s.recentLows
  if prices.isEmpty then 0
  else
    let recentPrices := takeLastN 50 prices
    (recentPrices.foldl (· + ·) 0) / (recentPrices.length : ℚ)

/-- `calculateConsolidationMove`: `(price * 0.01) * ((r - 0.5) * 2) * 0.5`. -/
def calculateConsolidationMove (currentPrice r : ℚ) : ℚ :=
  (currentPrice * 0.01) * ((r - 0.5) * 2) * 0.5

/-- Regime direction bias inside `calculateTrendingMove`. -/
def regimeBias : Regime → ℚ
  | .markup => 0.6
  | .markdown => -0.6
  | .accumulation => 0
  | .distribution => 0

/-- `updateRealisticTrend`: decay by 0.92, add the weighted increment, clamp to `[-1,1]`. -/
def updateRealisticTrend (trend randomFactor bias : ℚ) : ℚ :=
  max (-1) (min 1 (trend * 0.92 + (randomFactor * 0.3 + bias * 0.7) * 0.15))

/-- `calculateTrendingMove` (the `trendStrength` parameter is unused in the source). -/
def calculateTrendingMove (s : GenState) (currentPrice volatility trendStrength rMove : ℚ) :
    ℚ × GenState :=
  let randomFactor := (rMove - 0.5) * 2
  let bias := regimeBias s.marketRegime
  let trend' := updateRealisticTrend s.currentTrend randomFactor bias
  let s' := { s with currentTrend := trend' }
  let directionFactor := randomFactor * 0.4 + trend' * 0.6
  let moveSize0 := currentPrice * volatility
  let moveSize := if directionFactor < 0 then moveSize0 * 3.0 else moveSize0
  let change0 := moveSize * directionFactor
  let change1 := if getAverageVolatility s' > volatility * 1.5 then change0 * 1.3 else change0
  let deviation := (currentPrice - s'.basePrice) / s'.basePrice
  let meanReversion := -deviation * (|deviation| * 0.05) * currentPrice
  (change1 + meanReversion, s')

/-- `triggerRandomEvent`: pump / dump / flash crash, setting `eventCooldown` to 30–60 and a
consolidation period. -/
def triggerRandomEvent (s : GenState) (currentPrice rType rCooldown rSize : ℚ) : ℚ × GenState :=
  let s1 := { s with eventCooldown := 30 + (⌊rCooldown * 30⌋).toNat }
  if rType < 0.4 then
    let pumpSize := 0.05 + rSize * 0.05
    (currentPrice * pumpSize, { s1 with consolidationCounter := 5 })
  else if rType < 0.7 then
    let dumpSize := -(0.08 + rSize * 0.07)
    (currentPrice * dumpSize, { s1 with consolidationCounter := 8 })
  else
    let flashSize := -(0.05 + rSize * 0.03)
    (currentPrice * flashSize, { s1 with consolidationCounter := 3 })

/-- `calculateRealisticPriceChange`: forced consolidation, rare random events, else a 70/30
consolidation/trending split (accumulation and distribution always consolidate). -/
def calculateRealisticPriceChange (s : GenState) (currentPrice volatility trendStrength : ℚ)
    (r : GenRands) : ℚ × GenState :=
  if s.consolidationCounter > 0 then
    (calculateConsolidationMove currentPrice r.rMove, s)
  else if s.eventCooldown = 0 ∧ r.rEvent < 0.01 then
    triggerRandomEvent s currentPrice r.rEventType r.rEventCooldown r.rEventSize
  else
    let shouldTrend := r.rShouldTrend > 0.70
    if ¬shouldTrend ∨ s.marketRegime = Regime.accumulation ∨
        s.marketRegime = Regime.distribution then
      (calculateConsolidationMove currentPrice r.rMove, s)
    else
      calculateTrendingMove s currentPrice volatility trendStrength r.rMove

/-- The per-step cap chosen by `applyCircuitBreakers`: 2.5% normally, 5% in a high-volatility
environment, 10% right after a random event. -/
def capMaxChange (s : GenState) : ℚ :=
  let m := if getAverageVolatility s > 0.03 then 0.05 else 0.025
  if s.eventCooldown > 0 ∧ s.eventCooldown > 25 then 0.10 else m

/-- First half of `applyCircuitBreakers`: cap the proposed change, forcing consolidation when
the cap is hit. -/
def capStage (s : GenState) (currentPrice priceChange : ℚ) : ℚ × GenState :=
  let changePercent := |priceChange / currentPrice|
  let maxChange := capMaxChange s
  if changePercent > maxChange then
    let direction : ℚ := if priceChange > 0 then 1 else -1
    (currentPrice * maxChange * direction,
     { s with consolidationCounter := max s.consolidationCounter 10 })
  else (priceChange, s)

/-- Second half of `applyCircuitBreakers`: pull the resulting price back inside the ±30%
band around the moving average. -/
def maStage (s : GenState) (currentPrice priceChange : ℚ) : ℚ × GenState :=
  let movingAverage := getMovingAverage s
  if movingAverage > 0 then
    let newPrice := currentPrice + priceChange
    let deviation := |newPrice - movingAverage| / movingAverage
    if deviation > 0.30 then
      let maxPrice := movingAverage * (1 + 0.30)
      let minPrice := movingAverage * (1 - 0.30)
      let targetPrice := max minPrice (min maxPrice (currentPrice + priceChange))
      (targetPrice - currentPrice,
       { s with consolidationCounter := 20, currentTrend := s.currentTrend * 0.5 })
    else (priceChange, s)
  else (priceChange, s)

/-- `applyCircuitBreakers` = cap stage then moving-average stage, in source order. -/
def applyCircuitBreakers (s : GenState) (currentPrice priceChange : ℚ) : ℚ × GenState :=
  let p1 := capStage s currentPrice priceChange
  maStage p1.2 currentPrice p1.1

/-- `generateRealisticHighLow`: wicks of random size above/below the body, low floored
at 0.01. -/
def generateRealisticHighLow (open_ close volatility rWick rHigh rLow : ℚ) : ℚ × ℚ :=
  let bodySize := |close - open_|
  let priceLevel := max open_ close
  let wickMultiplier := 0.5 + rWick * 1.5
  let maxWickSize := max bodySize (priceLevel * volatility * 0.3) * wickMultiplier
  let highWickSize := rHigh * maxWickSize
  let high := max open_ close + highWickSize
  let lowWickSize := rLow * maxWickSize
  let low := min open_ close - lowWickSize
  (high, max 0.01 low)

/-- `generateRealisticVolume`. -/
def generateRealisticVolume (s : GenState) (baseVolume priceChange currentPrice rVol : ℚ) : ℚ :=
  let v0 := baseVolume * (1 + |priceChange / currentPrice| * 20)
  let v1 := v0 * (match s.marketRegime with
    | .markup => 1.3
    | .markdown => 1.8
    | .distribution => 1.1
    | .accumulation => 0.7)
  let v2 := v1 * (0.7 + rVol * 0.6)
  if getAverageVolatility s > 0.03 then v2 * 1.2 else v2

/-- The level-scan loop of `applySupportResistance`.  Each level consumes one oracle pair
(magnet draw, break draw); an early return keeps already-weakened levels and the
unvisited tail. -/
def applySRGo (current : ℚ) (dirPos : Bool) (now : ℚ) :
    List SRLevel → ℚ → List (ℚ × ℚ) → ℚ × List SRLevel
  | [], target, _ => (target, [])
  | lvl :: rest, target, rands =>
    let r1 := (rands.headD (1, 1)).1
    let r2 := (rands.headD (1, 1)).2
    let rands' := rands.tail
    let distanceToLevel := |target - lvl.price| / lvl.price
    if distanceToLevel < 0.01 ∧ lvl.strength > 0.5 ∧ r1 < lvl.strength * 0.5 then
      (lvl.price, { lvl with touches := lvl.touches + 1, lastTouch := now } :: rest)
    else if dirPos = true ∧ target > lvl.price ∧ current ≤ lvl.price then
      if r2 < lvl.strength * 0.6 then
        (lvl.price * 0.998, lvl :: rest)
      else
        let out := applySRGo current dirPos now rest target rands'
        (out.1, { lvl with strength := lvl.strength * 0.7 } :: out.2)
    else if dirPos = false ∧ target < lvl.price ∧ current ≥ lvl.price then
      if r2 < lvl.strength * 0.6 then
        (lvl.price * 1.002, lvl :: rest)
      else
        let out := applySRGo current dirPos now rest target rands'
        (out.1, { lvl with strength := lvl.strength * 0.7 } :: out.2)
    else
      let out := applySRGo current dirPos now rest target rands'
      (out.1, lvl :: out.2)

/-- `applySupportResistance(targetPrice, currentPrice)`. -/
def applySupportResistance (levels : List SRLevel) (targetPrice currentPrice now : ℚ)
    (rands : List (ℚ × ℚ)) : ℚ × List SRLevel :=
  applySRGo currentPrice (decide (targetPrice > currentPrice)) now levels targetPrice rands

/-- `addSupportResistance`: strengthen the first level within 2%, else append a new one. -/
def addSR : List SRLevel → ℚ → ℚ → ℚ → List SRLevel
  | [], price, strength, now =>
    [{ price := price, strength := min 1 strength, touches := 1, lastTouch := now }]
  | lvl :: rest, price, strength, now =>
    if |lvl.price - price| / price < 0.02 then
      { lvl with strength := min 1 (lvl.strength + strength * 0.2),
                 touches := lvl.touches + 1, lastTouch := now } :: rest
    else lvl :: addSR rest price strength now

/-- The fixed psychological levels scanned by `updateSupportResistance`. -/
def roundLevels : List ℚ := [10, 25, 50, 100, 150, 200, 250, 300, 400, 500]

/-- The level registrations of `updateSupportResistance(high, low, close)` before pruning:
a new 20-step extreme registers at strength 0.6; closeness (within 5%) to a round number
registers a psychological level at strength 0.8.  (JS `Math.max()`/`Math.min()` of an
empty spread is `-Infinity`/`Infinity`, so an empty window always registers.) -/
def updateSRNewLevels (s : GenState) (high low close now : ℚ) : List SRLevel :=
  let levels0 := s.supportResistanceLevels
  let levels1 :=
    match (takeLastN 20 s.recentHighs).max? with
    | none => addSR levels0 high 0.6 now
    | some m => if high ≥ m then addSR levels0 high 0.6 now else levels0
  let levels2 :=
    match (takeLastN 20 s.recentLows).min? with
    | none => addSR levels1 low 0.6 now
    | some m => if low ≤ m then addSR levels1 low 0.6 now else levels1
  roundLevels.foldl
    (fun ls L => if |close - L| / L < 0.05 then addSR ls L 0.8 now else ls) levels2

/-- `updateSupportResistance(high, low, close)`: register new extremes and round-number
levels, then drop levels of strength ≤ 0.2 and keep only the last 15. -/
def updateSupportResistance (s : GenState) (high low close now : ℚ) : GenState :=
  { s with supportResistanceLevels :=
      takeLastN 15 ((updateSRNewLevels s high low close now).filter
        (fun l => l.strength > 0.2)) }

/-- `updateMarketRegime`: cyclic transitions with a probabilistic gate after 40 candles
and a price-trend confirmation; on any actual transition the momentum and the per-regime
candle counter reset. -/
def updateMarketRegime (s : GenState) (now r1 r2 : ℚ) : GenState :=
  let recentPrices := takeLastN 30 s.recentHighs
  if recentPrices.length < 10 then s
  else
    let oldPrice := recentPrices.headD 0
    let newPrice := recentPrices.getLastD 0
    let priceChange := (newPrice - oldPrice) / oldPrice
    if s.regimeCandleCount > 40 ∧ r1 < 0.3 then
      let newRegime :=
        match s.marketRegime with
        | .accumulation =>
          if priceChange > 0.05 ∨ r2 < 0.4 then Regime.markup else Regime.accumulation
        | .markup =>
          if priceChange < 0.02 ∨ r2 < 0.3 then Regime.distribution else Regime.markup
        | .distribution =>
          if priceChange < -0.05 ∨ r2 < 0.4 then Regime.markdown else Regime.distribution
        | .markdown =>
          if priceChange > -0.02 ∨ r2 < 0.3 then Regime.accumulation else Regime.markdown
      if newRegime ≠ s.marketRegime then
        { s with marketRegime := newRegime, regimeStartTime := now,
                 regimeCandleCount := 0, currentTrend := 0 }
      else s
    else s

/-- `previousClose = previousCandle?.close || basePrice` (JS `||`: 0 falls back). -/
def prevCloseOf (s : GenState) (p : GenParams) : ℚ :=
  match p.previousCandle with
  | some c => if c.close = 0 then p.basePrice.getD s.basePrice else c.close
  | none => p.basePrice.getD s.basePrice

/-- State bookkeeping at the top of `generateCandle`: counter increment, price history,
periodic regime update, cooldown decrements. -/
def gcPre (s : GenState) (p : GenParams) (now : ℚ) (r : GenRands) : GenState :=
  let previousClose := prevCloseOf s p
  let s1 := { s with regimeCandleCount := s.regimeCandleCount + 1, lastPrice := previousClose,
                     recentHighs := pushBounded 100 previousClose s.recentHighs,
                     recentLows := pushBounded 100 previousClose s.recentLows }
  let s2 := if s1.regimeCandleCount > 30 then updateMarketRegime s1 now r.rRegime1 r.rRegime2
            else s1
  { s2 with consolidationCounter := s2.consolidationCounter - 1,
            eventCooldown := s2.eventCooldown - 1 }

/-- The proposed price change of a step: the manual formula when a non-neutral manual
direction is set, otherwise the hyper-realistic auto algorithm. -/
def gcProposed (s : GenState) (p : GenParams) (now : ℚ) (r : GenRands) : ℚ × GenState :=
  let previousClose := prevCloseOf s p
  let s1 := gcPre s p now r
  match p.manualDirection with
  | some d =>
    if d = Dir3.neutral then
      calculateRealisticPriceChange s1 previousClose (p.volatility.getD s.volatility)
        (p.trendStrength.getD s.trendStrength) r
    else
      (calculateManualChange previousClose d (p.manualSpeed.getD 0.01)
        (p.manualIntensity.getD 1.0), s1)
  | none =>
    calculateRealisticPriceChange s1 previousClose (p.volatility.getD s.volatility)
      (p.trendStrength.getD s.trendStrength) r

/-- The proposed change after `applyCircuitBreakers`. -/
def gcClamped (s : GenState) (p : GenParams) (now : ℚ) (r : GenRands) : ℚ × GenState :=
  let prop := gcProposed s p now r
  applyCircuitBreakers prop.2 (prevCloseOf s p) prop.1

/-- `close = Math.max(0.01, open + priceChange)`. -/
def gcClose0 (s : GenState) (p : GenParams) (now : ℚ) (r : GenRands) : ℚ :=
  max 0.01 (prevCloseOf s p + (gcClamped s p now r).1)

/-- The close after `applySupportResistance`, together with the adjusted level set. -/
def gcSR (s : GenState) (p : GenParams) (now : ℚ) (r : GenRands) : ℚ × List SRLevel :=
  applySupportResistance (gcClamped s p now r).2.supportResistanceLevels
    (gcClose0 s p now r) (prevCloseOf s p) now r.srRands

/-- `generateCandle` of the hyper-realistic `CandleGenerator`, returning the candle and
the generator state after the step. -/
def generateCandle (s : GenState) (p : GenParams) (now : ℚ) (r : GenRands) :
    Candle × GenState :=
  let previousClose := prevCloseOf s p
  let timestamp : ℤ := ⌊now / 60000⌋ * 60000
  let priceChange := (gcClamped s p now r).1
  let close1 := (gcSR s p now r).1
  let s2 := { (gcClamped s p now r).2 with supportResistanceLevels := (gcSR s p now r).2 }
  let hl := generateRealisticHighLow previousClose close1 (p.volatility.getD s.volatility)
    r.rWickMult r.rHighWick r.rLowWick
  let volume := generateRealisticVolume s2 (p.volumeBase.getD s.volumeBase) priceChange
    previousClose r.rVolume
  let s3 := updateSupportResistance s2 hl.1 hl.2 close1 now
  let candleVolatility := |priceChange / previousClose|
  let s4 := { s3 with volatilityHistory := pushBounded 20 candleVolatility s3.volatilityHistory }
  ({ symbol := "ZPHUSD", timestamp := timestamp,
     open_ := roundPrice previousClose, high := roundPrice hl.1, low := roundPrice hl.2,
     close := roundPrice close1, volume := roundVolume volume,
     mode := if p.manualDirection.isSome then Mode.manual else Mode.auto,
     resolution := "1" }, s4)

/-- The constructor state of the hyper-realistic generator with the default
`TRADING_CONSTANTS` (base price 10, volatility 2%), including the initial
support/resistance level at the base price. -/
def initialState (now : ℚ) : GenState :=
  { basePrice := 10, volatility := 0.02, trendStrength := 0.1, volumeBase := 100,
    currentTrend := 0, lastPrice := 10, marketRegime := Regime.accumulation,
    regimeStartTime := now, regimeCandleCount := 0,
    supportResistanceLevels := addSR [] 10 1.0 now,
    recentHighs := [], recentLows := [], volatilityHistory := [],
    consolidationCounter := 0, eventCooldown := 0 }

/-! ### Original (non-hyper-realistic) `CandleGenerator.calculatePriceChange` -/

/-- JS `x || d` for an optional numeric argument: `undefined` and `0` fall back to `d`. -/
def orDefault (x : Option ℚ) (d : ℚ) : ℚ :=
  match x with
  | none => d
  | some v => if v = 0 then d else v

/-- The original generator's `updateTrend`: decay 0.95, increment `randomFactor * 0.1`,
clamp to `[-1,1]`. -/
def origUpdateTrend (trend randomFactor : ℚ) : ℚ :=
  max (-1) (min 1 (trend * 0.95 + randomFactor * 0.1))

/-- The original generator's noise term: `currentPrice * (Math.random() - 0.5) * 0.001`. -/
def origNoise (currentPrice rNoise : ℚ) : ℚ :=
  currentPrice * (rNoise - 0.5) * 0.001

/-- The original `calculatePriceChange` before the noise is added (manual formula, or
random + trend + mean-reversion in auto mode); returns the change and the new trend. -/
def origCoreChange (basePrice trend currentPrice volatility trendStrength : ℚ)
    (manualDirection : Option Dir3) (manualSpeed manualIntensity : Option ℚ)
    (rMain : ℚ) : ℚ × ℚ :=
  match manualDirection with
  | some d =>
    if d ≠ Dir3.neutral then
      let dir : ℚ := if d = Dir3.up then 1 else -1
      let speed := orDefault manualSpeed 0.01
      let intensity := orDefault manualIntensity 1.0
      (currentPrice * dir * speed * intensity, trend)
    else
      let randomFactor := (rMain - 0.5) * 2
      let trend' := origUpdateTrend trend randomFactor
      ((currentPrice * volatility * randomFactor) + (currentPrice * trend' * trendStrength) +
        ((basePrice - currentPrice) * 0.001), trend')
  | none =>
    let randomFactor := (rMain - 0.5) * 2
    let trend' := origUpdateTrend trend randomFactor
    ((currentPrice * volatility * randomFactor) + (currentPrice * trend' * trendStrength) +
      ((basePrice - currentPrice) * 0.001), trend')

/-- The original `calculatePriceChange`: core change plus the always-added noise term. -/
def origCalculatePriceChange (basePrice trend currentPrice volatility trendStrength : ℚ)
    (manualDirection : Option Dir3) (manualSpeed manualIntensity : Option ℚ)
    (rMain rNoise : ℚ) : ℚ × ℚ :=
  let core := origCoreChange basePrice trend currentPrice volatility trendStrength
    manualDirection manualSpeed manualIntensity rMain
  (core.1 + origNoise currentPrice rNoise, core.2)

/-! ### TradingService (tradingService.ts) -/

/-- A stored `manual_control` row as seen by the engine. -/
structure ManualControlRec where
  direction : Dir3
  speed : ℚ
  intensity : ℚ
  duration_seconds : ℚ
  is_active : Bool
  expires_at : ℚ
deriving DecidableEq

/-- The live-OHLC tracking fields of `TradingService`
(`currentCandleStartTime/Open/High/Low/Volume`). -/
structure LiveState where
  startTime : ℤ
  openL : ℚ
  highL : ℚ
  lowL : ℚ
  volumeL : ℚ
deriving DecidableEq

/-- The `TradingService` in-memory state relevant to candle generation. -/
structure ServiceState where
  genState : GenState
  currentPrice : ℚ
  live : LiveState
deriving DecidableEq

/-- `generateAndStoreCandle` (persistence/broadcast side effects omitted): generate a fresh
candle from the last stored candle and the active manual control, set the streaming price
to its close, and reset the live-OHLC tracking from the new candle's own fields. -/
def generateAndStoreCandle (st : ServiceState) (lastCandle : Option Candle)
    (control : Option ManualControlRec) (now : ℚ) (r : GenRands) : Candle × ServiceState :=
  let params : GenParams :=
    { previousCandle := lastCandle,
      manualDirection := control.map (·.direction),
      manualSpeed := control.map (·.speed),
      manualIntensity := control.map (·.intensity) }
  let out := generateCandle st.genState params now r
  (out.1,
   { genState := out.2,
     currentPrice := out.1.close,
     live := { startTime := out.1.timestamp, openL := out.1.open_, highL := out.1.high,
               lowL := out.1.low, volumeL := out.1.volume } })

/-- Candle-row match on symbol and resolution (the supabase `eq` filters). -/
def candleMatches (symbol resolution : String) (c : Candle) : Prop :=
  c.symbol = symbol ∧ c.resolution = resolution

instance : ∀ symbol resolution c, Decidable (candleMatches symbol resolution c) :=
  fun _ _ _ => inferInstanceAs (Decidable (_ ∧ _))

/-- Timestamp-ascending order used by the history queries. -/
def candleLE (a b : Candle) : Prop := a.timestamp ≤ b.timestamp

instance : DecidableRel candleLE :=
  fun a b => inferInstanceAs (Decidable (a.timestamp ≤ b.timestamp))

instance : IsTotal Candle candleLE := ⟨fun a b => le_total a.timestamp b.timestamp⟩

instance : IsTrans Candle candleLE := ⟨fun _ _ _ h1 h2 => le_trans h1 h2⟩

/-- `getHistoricalCandles` over a modelled candle table: the ranged query (timestamp
ascending, limited), falling back to the same query without time filters when the ranged
query is empty. -/
def getHistoricalCandles (db : List Candle) (symbol resolution : String)
    (fromS toS : ℤ) (limit : ℕ) : List Candle :=
  let fromMs := fromS * 1000
  let toMs := toS * 1000
  let inRange := (List.insertionSort candleLE
    (db.filter (fun c => decide (candleMatches symbol resolution c) &&
      decide (fromMs ≤ c.timestamp) && decide (c.timestamp ≤ toMs)))).take limit
  if inRange.isEmpty then
    (List.insertionSort candleLE
      (db.filter (fun c => decide (candleMatches symbol resolution c)))).take limit
  else inRange

/-- The TradingView `/history` wire response. -/
structure HistoryResponse where
  s : String
  t : List ℤ
  o : List ℚ
  h : List ℚ
  l : List ℚ
  c : List ℚ
  v : List ℚ
deriving DecidableEq

/-- The `/history` route handler (with `from`/`to` present): `no_data` with empty arrays
when the query yields nothing, otherwise `ok` with index-aligned arrays, timestamps in
seconds. -/
def historyHandler (db : List Candle) (symbol resolution : String) (fromS toS : ℤ)
    (countback : ℕ) : HistoryResponse :=
  let limit := min countback 1000
  let candles := getHistoricalCandles db symbol resolution fromS toS limit
  if candles.isEmpty then
    { s := "no_data", t := [], o := [], h := [], l := [], c := [], v := [] }
  else
    { s := "ok",
      t := candles.map (fun c => Int.fdiv c.timestamp 1000),
      o := candles.map (·.open_), h := candles.map (·.high), l := candles.map (·.low),
      c := candles.map (·.close), v := candles.map (·.volume) }

/-! ### `/manual-control` route (tradingview.ts) -/

/-- The request body of `POST /manual-control` after JSON defaults. -/
structure ManualControlBody where
  direction : String
  speed : ℚ := 0.01
  intensity : ℚ := 1.0
  duration_seconds : ℚ := 300
deriving DecidableEq

/-- HTTP-ish response: success flag and status code. -/
structure ApiResp where
  success : Bool
  status : ℕ
deriving DecidableEq

/-- The engine-side store of manual controls (the `manual_control` table). -/
structure ControlsState where
  controls : List ManualControlRec
deriving DecidableEq

/-- Parse a validated direction string. -/
def dirOfString (d : String) : Dir3 :=
  if d = "up" then Dir3.up else if d = "down" then Dir3.down else Dir3.neutral

/-- `TradingService.createManualControl`: compute `expires_at` and insert the row. -/
def createManualControl (st : ControlsState) (body : ManualControlBody) (now : ℚ) :
    ControlsState :=
  { controls := st.controls ++
      [{ direction := dirOfString body.direction, speed := body.speed,
         intensity := body.intensity, duration_seconds := body.duration_seconds,
         is_active := true, expires_at := now + body.duration_seconds * 1000 }] }

/-- The `POST /manual-control` handler: direction/speed/intensity validation (400 on
failure, engine untouched), then control creation.  The route defines no bounds for
`duration_seconds`. -/
def manualControlHandler (body : ManualControlBody) (st : ControlsState) (now : ℚ) :
    ApiResp × ControlsState :=
  if ¬(body.direction = "up" ∨ body.direction = "down" ∨ body.direction = "neutral") then
    ({ success := false, status := 400 }, st)
  else if body.speed < 0 ∨ body.speed > 1 then
    ({ success := false, status := 400 }, st)
  else if body.intensity < 0 ∨ body.intensity > 10 then
    ({ success := false, status := 400 }, st)
  else
    ({ success := true, status := 200 }, createManualControl st body now)

/-! ### Concrete fixtures for counterexamples -/

/-- A previous candle closing at 9.05, fed to the generator. -/
def cePrev905 : Candle :=
  { symbol := "ZPHUSD", timestamp := 0, open_ := 9, high := 91/10, low := 89/10,
    close := 181/20, volume := 1, mode := Mode.auto, resolution := "1" }

/-- A previous candle closing at 10. -/
def cePrev10 : Candle :=
  { symbol := "ZPHUSD", timestamp := 0, open_ := 10, high := 101/10, low := 99/10,
    close := 10, volume := 1, mode := Mode.auto, resolution := "1" }

/-- Oracle draws for the C1 counterexample: trigger a good-news pump (event draw 0.005,
type draw 0.3, size draw 0.9 giving +9.5%), then let the support/resistance magnet fire
(first support/resistance draw 0.2 < strength × 0.5). -/
def ceRandsC1 : GenRands :=
  { rEvent := 1/200, rEventType := 3/10, rEventCooldown := 0, rEventSize := 9/10,
    rShouldTrend := 0, rMove := 0, srRands := [(1/5, 9/10)] }

/-- Oracle draws for the C4 counterexample: no event, no magnet, breakout past the level. -/
def ceRandsC4 : GenRands := { srRands := [(9/10, 9/10)] }

/-- Two distinct oracle bundles for the C8 counterexample (they differ in every draw a
noise term could come from). -/
def ceRandsC8a : GenRands :=
  { srRands := [(9/10, 9/10)], rMove := 1/10, rVolume := 1/3, rHighWick := 1/2 }

/-- Second oracle bundle for the C8 counterexample. -/
def ceRandsC8b : GenRands :=
  { srRands := [(9/10, 9/10)], rMove := 9/10, rVolume := 2/3, rHighWick := 1/4 }

/-- Oracle draws for the C2 counterexample: a plain auto-mode consolidation step. -/
def ceRandsC2 : GenRands := { rEvent := 1/2, rMove := 3/4, srRands := [(9/10, 9/10)] }

/-- Service state with a live candle mid-accumulation (open 42, volume 999) for the C2
counterexample. -/
def ceServiceState : ServiceState :=
  { genState := initialState 0, currentPrice := 42,
    live := { startTime := 0, openL := 42, highL := 43, lowL := 41, volumeL := 999 } }

/-- A candle table whose only row lies outside the queried range, for the C5
counterexample. -/
def ceDb : List Candle := [{ cePrev10 with timestamp := 60000 }]

/-- A manual-control request with an invalid direction, for the C9 witness. -/
def ceBadBody : ManualControlBody :=
  { direction := "sideways", speed := 1/100, intensity := 1, duration_seconds := 300 }

/-! ### Helper lemmas -/

/-- `roundPrice` is monotone. -/
theorem roundPrice_mono {a b : ℚ} (h : a ≤ b) : roundPrice a ≤ roundPrice b := by
  unfold roundPrice
  have h1 : (⌊a * 100 + 1/2⌋ : ℤ) ≤ ⌊b * 100 + 1/2⌋ := Int.floor_le_floor (by linarith)
  have h2 : ((⌊a * 100 + 1/2⌋ : ℤ) : ℚ) ≤ ((⌊b * 100 + 1/2⌋ : ℤ) : ℚ) := by exact_mod_cast h1
  linarith

/-- Anything at least `0.00998` rounds to at least one cent. -/
theorem roundPrice_lb {x : ℚ} (h : (499/50000 : ℚ) ≤ x) : (1/100 : ℚ) ≤ roundPrice x := by
  unfold roundPrice
  have h1 : (1 : ℤ) ≤ ⌊x * 100 + 1/2⌋ := by
    rw [Int.le_floor]
    push_cast
    linarith
  have h2 : (1 : ℚ) ≤ ((⌊x * 100 + 1/2⌋ : ℤ) : ℚ) := by exact_mod_cast h1
  linarith

/-- Anything in `[0.00998, 0.01]` rounds to exactly one cent. -/
theorem roundPrice_eq_cent {x : ℚ} (h1 : (499/50000 : ℚ) ≤ x) (h2 : x ≤ 1/100) :
    roundPrice x = 1/100 := by
  unfold roundPrice
  have hf : ⌊x * 100 + 1/2⌋ = 1 := by
    rw [Int.floor_eq_iff]
    push_cast
    constructor <;> linarith
  rw [hf]
  norm_num

/-! ### Claim C1 -/

/-- C1 (counterexample): starting from the freshly-constructed generator with a previous
close of 9.05, a triggered pump event (delta +9.5%, within the 10% post-event cap) is then
magneted by the initial support/resistance level to exactly 10, so the realized
close-to-close move is 10.497% — above even the widest (10%) per-step cap, hence above
whatever cap is currently applicable.  The claim `|close − previousClose| / previousClose ≤
cap` is therefore false. -/
theorem close_move_can_exceed_cap :
    (generateCandle (initialState 0) { previousCandle := some cePrev905 } 0 ceRandsC1).1.close
      = 10 ∧
    (generateCandle (initialState 0) { previousCandle := some cePrev905 } 0 ceRandsC1).1.open_
      = 181/20 ∧
    (initialState 0).eventCooldown = 0 ∧
    ¬ (|(10 : ℚ) - 181/20| / (181/20) ≤ 0.10) := by
  refine ⟨?_, ?_, ?_, ?_⟩ <;> with_unfolding_all decide

/-- C1 (amended): the per-step cap stage of `applyCircuitBreakers` does bound the proposed
delta by the currently-applicable cap (2.5%, 5% or 10% of price), clamping to the cap
preserving sign and forcing `consolidationCounter ≥ 10` whenever the proposal exceeds it —
but the final close can still exceed the cap because `applySupportResistance` runs after
the clamp (see the counterexample). -/
theorem capStage_caps_delta (s : GenState) (currentPrice priceChange : ℚ)
    (hp : 0 < currentPrice) :
    |(capStage s currentPrice priceChange).1| ≤ capMaxChange s * currentPrice ∧
    (capMaxChange s = 0.025 ∨ capMaxChange s = 0.05 ∨ capMaxChange s = 0.10) ∧
    (|priceChange / currentPrice| > capMaxChange s →
      (capStage s currentPrice priceChange).1 =
        currentPrice * capMaxChange s * (if priceChange > 0 then 1 else -1) ∧
      10 ≤ (capStage s currentPrice priceChange).2.consolidationCounter) := by
  have hcap : capMaxChange s = 0.025 ∨ capMaxChange s = 0.05 ∨ capMaxChange s = 0.10 := by
    unfold capMaxChange
    split_ifs <;> simp
  have hcapnn : 0 ≤ capMaxChange s := by
    rcases hcap with h | h | h <;> rw [h] <;> norm_num
  refine ⟨?_, hcap, ?_⟩
  · simp only [capStage]
    split_ifs with hgt hpos hpos
    · rw [abs_mul, abs_mul, abs_of_pos hp, abs_of_nonneg hcapnn]
      norm_num
      ring_nf
      exact le_refl _
    · rw [abs_mul, abs_mul, abs_of_pos hp, abs_of_nonneg hcapnn]
      norm_num
      ring_nf
      exact le_refl _
    · push_neg at hgt
      rw [abs_div, abs_of_pos hp] at hgt
      rw [div_le_iff₀ hp] at hgt
      linarith [hgt]
  · intro hgt
    simp only [capStage]
    rw [if_pos hgt]
    exact ⟨rfl, le_max_right _ _⟩

/-- C1 (witness): the cap-stage bound at the initial state, price 10 and a proposed
delta of 1 (10%, above the applicable 2.5% cap). -/
theorem capStage_caps_delta_witness :
    (0 : ℚ) < 10 ∧
    (|(capStage (initialState 0) 10 1).1| ≤ capMaxChange (initialState 0) * 10 ∧
     (capMaxChange (initialState 0) = 0.025 ∨ capMaxChange (initialState 0) = 0.05 ∨
      capMaxChange (initialState 0) = 0.10) ∧
     (|(1 : ℚ) / 10| > capMaxChange (initialState 0) →
       (capStage (initialState 0) 10 1).1 =
         10 * capMaxChange (initialState 0) * (if (1 : ℚ) > 0 then 1 else -1) ∧
       10 ≤ (capStage (initialState 0) 10 1).2.consolidationCounter)) :=
  ⟨by decide, capStage_caps_delta (initialState 0) 10 1 (by decide)⟩

/-! ### Claim C2 -/

set_option maxRecDepth 2000 in
/-- C2 (counterexample): on a close tick the service does not consume the live candle
state — with a live state accumulated at open 42 / volume 999, the finalized candle has
open 10 (the last stored close) and the live tracking is reset to the new candle's open
10, not its close 10.03. -/
theorem close_tick_ignores_live_state :
    (generateAndStoreCandle ceServiceState (some cePrev10) none 0 ceRandsC2).1.open_ = 10 ∧
    ceServiceState.live.openL = 42 ∧
    (generateAndStoreCandle ceServiceState (some cePrev10) none 0 ceRandsC2).1.close
      = 1003/100 ∧
    (generateAndStoreCandle ceServiceState (some cePrev10) none 0 ceRandsC2).2.live.openL
      = 10 ∧
    ¬ ((generateAndStoreCandle ceServiceState (some cePrev10) none 0 ceRandsC2).2.live.openL
      = (generateAndStoreCandle ceServiceState (some cePrev10) none 0 ceRandsC2).1.close) := by
  refine ⟨?_, ?_, ?_, ?_, ?_⟩ <;> with_unfolding_all decide

/-- C2 (amended): on a candle-close tick the service generates a fresh candle from the
last stored candle (discarding the accumulated `LiveCandleState`), sets the streaming
price to the new close, and resets the live tracking to the new candle's own
open/high/low/volume/timestamp — so the next live open is the just-closed candle's open,
not its close; the candle's mode is `manual` iff a manual control is active at the instant
of the close tick. -/
theorem close_tick_resets_live_from_new_candle (st : ServiceState) (lastCandle : Option Candle)
    (control : Option ManualControlRec) (now : ℚ) (r : GenRands) :
    (generateAndStoreCandle st lastCandle control now r).2.live.openL =
      (generateAndStoreCandle st lastCandle control now r).1.open_ ∧
    (generateAndStoreCandle st lastCandle control now r).2.live.highL =
      (generateAndStoreCandle st lastCandle control now r).1.high ∧
    (generateAndStoreCandle st lastCandle control now r).2.live.lowL =
      (generateAndStoreCandle st lastCandle control now r).1.low ∧
    (generateAndStoreCandle st lastCandle control now r).2.live.volumeL =
      (generateAndStoreCandle st lastCandle control now r).1.volume ∧
    (generateAndStoreCandle st lastCandle control now r).2.live.startTime =
      (generateAndStoreCandle st lastCandle control now r).1.timestamp ∧
    (generateAndStoreCandle st lastCandle control now r).2.currentPrice =
      (generateAndStoreCandle st lastCandle control now r).1.close ∧
    (generateAndStoreCandle st lastCandle control now r).1.mode =
      (if control.isSome then Mode.manual else Mode.auto) := by
  refine ⟨rfl, rfl, rfl, rfl, rfl, rfl, ?_⟩
  cases control <;> rfl

/-! ### Claim C4 -/

set_option maxRecDepth 2000 in
/-- C4 (counterexample): an active manual control `up` with speed 1 and intensity 1 (both
inside the validated bounds) proposes a +100% delta, but the realized step delta is the
circuit-breaker-clamped +2.5% — `close − open = 0.25`, not the manual formula value 10.
The claim that the step's price delta equals `currentPrice × sign × speed × intensity` is
therefore false. -/
theorem manual_delta_clamped :
    (generateCandle (initialState 0)
      { previousCandle := some cePrev10, manualDirection := some Dir3.up,
        manualSpeed := some 1, manualIntensity := some 1 } 0 ceRandsC4).1.close = 41/4 ∧
    (generateCandle (initialState 0)
      { previousCandle := some cePrev10, manualDirection := some Dir3.up,
        manualSpeed := some 1, manualIntensity := some 1 } 0 ceRandsC4).1.open_ = 10 ∧
    calculateManualChange 10 Dir3.up 1 1 = 10 ∧
    ¬ ((41/4 : ℚ) - 10 = 10) := by
  refine ⟨?_, ?_, ?_, ?_⟩ <;> with_unfolding_all decide

/-- C4 (amended): with an active non-neutral manual control, the *proposed* step delta
(before the circuit breakers and the support/resistance adjustment) equals
`currentPrice × direction_sign × speed × intensity`, computed without any use of the
random oracles — two runs with the same inputs but arbitrary different oracle draws
propose the same delta.  The realized delta can differ: circuit breakers clamp it and the
support/resistance pass can move the close (randomly). -/
theorem manual_proposed_delta_formula (s : GenState) (p : GenParams) (now : ℚ)
    (r r' : GenRands) :
    (gcProposed s { p with manualDirection := some Dir3.up } now r).1 =
      prevCloseOf s { p with manualDirection := some Dir3.up } * 1 *
        p.manualSpeed.getD 0.01 * p.manualIntensity.getD 1.0 ∧
    (gcProposed s { p with manualDirection := some Dir3.down } now r).1 =
      prevCloseOf s { p with manualDirection := some Dir3.down } * (-1) *
        p.manualSpeed.getD 0.01 * p.manualIntensity.getD 1.0 ∧
    (gcProposed s { p with manualDirection := some Dir3.up } now r).1 =
      (gcProposed s { p with manualDirection := some Dir3.up } now r').1 ∧
    (gcProposed s { p with manualDirection := some Dir3.down } now r).1 =
      (gcProposed s { p with manualDirection := some Dir3.down } now r').1 :=
  ⟨rfl, rfl, rfl, rfl⟩

/-! ### Claim C8 -/

set_option maxRecDepth 2000 in
/-- C8 (counterexample): in the hyper-realistic generator no noise term is added in manual
mode — two runs over the same manual step with different oracle draws (including the
draws a noise term would come from) produce the same close, and `close − open` equals the
manual formula `10 × 1 × 0.001 × 1` exactly, with no noise component. -/
theorem hyper_manual_no_noise :
    (generateCandle (initialState 0)
      { previousCandle := some cePrev10, manualDirection := some Dir3.up,
        manualSpeed := some (1/1000), manualIntensity := some 1 } 0 ceRandsC8a).1.close
      = 1001/100 ∧
    (generateCandle (initialState 0)
      { previousCandle := some cePrev10, manualDirection := some Dir3.up,
        manualSpeed := some (1/1000), manualIntensity := some 1 } 0 ceRandsC8b).1.close
      = 1001/100 ∧
    (generateCandle (initialState 0)
      { previousCandle := some cePrev10, manualDirection := some Dir3.up,
        manualSpeed := some (1/1000), manualIntensity := some 1 } 0 ceRandsC8a).1.open_
      = 10 ∧
    (1001/100 : ℚ) - 10 = calculateManualChange 10 Dir3.up (1/1000) 1 ∧
    ¬ (ceRandsC8a = ceRandsC8b) := by
  refine ⟨?_, ?_, ?_, ?_, ?_⟩ <;> with_unfolding_all decide

/-- C8 (amended): the always-added bounded noise term exists only in the *original*
generator's `calculatePriceChange`: there, in both manual and auto modes, the returned
change is the core change plus `currentPrice × (r − 0.5) × 0.001`, whose magnitude is at
most 0.1% of price (indeed at most 0.05%).  The hyper-realistic generator adds no such
term (see the counterexample). -/
theorem orig_noise_always_added (basePrice trend currentPrice volatility trendStrength : ℚ)
    (manualDirection : Option Dir3) (manualSpeed manualIntensity : Option ℚ)
    (rMain rNoise : ℚ) (h0 : 0 ≤ rNoise) (h1 : rNoise ≤ 1) (hp : 0 ≤ currentPrice) :
    (origCalculatePriceChange basePrice trend currentPrice volatility trendStrength
        manualDirection manualSpeed manualIntensity rMain rNoise).1 =
      (origCoreChange basePrice trend currentPrice volatility trendStrength
        manualDirection manualSpeed manualIntensity rMain).1 +
        origNoise currentPrice rNoise ∧
    |origNoise currentPrice rNoise| ≤ 0.001 * currentPrice := by
  refine ⟨rfl, ?_⟩
  unfold origNoise
  have habs : |rNoise - 0.5| ≤ 0.5 := by
    rw [abs_le]
    constructor <;> linarith
  rw [abs_mul, abs_mul, abs_of_nonneg hp]
  have h2 : |(0.001 : ℚ)| = 0.001 := by norm_num
  rw [h2]
  nlinarith [abs_nonneg (rNoise - (0.5 : ℚ))]

/-- C8 (witness): the noise decomposition and bound at a concrete auto-mode call of the
original generator. -/
theorem orig_noise_always_added_witness :
    ((0 : ℚ) ≤ 1 ∧ (1 : ℚ) ≤ 1 ∧ (0 : ℚ) ≤ 10) ∧
    ((origCalculatePriceChange 10 0 10 0.02 0.1 none none none (1/2) 1).1 =
      (origCoreChange 10 0 10 0.02 0.1 none none none (1/2)).1 + origNoise 10 1 ∧
     |origNoise 10 1| ≤ 0.001 * 10) :=
  ⟨⟨by decide, by decide, by decide⟩,
   orig_noise_always_added 10 0 10 0.02 0.1 none none none (1/2) 1
     (by decide) (by decide) (by decide)⟩

/-! ### Claim C5 -/

set_option maxRecDepth 2000 in
/-- C5 (counterexample): a history request over a range ([0s, 10s]) containing zero stored
candles does not return `no_data` when the table holds any candle at all — the fallback
query without time filters returns it and the response status is `ok`. -/
theorem empty_range_not_no_data :
    (historyHandler ceDb "ZPHUSD" "1" 0 10 5).s = "ok" ∧
    ceDb.filter (fun c => decide (candleMatches "ZPHUSD" "1" c) &&
      decide ((0 : ℤ) * 1000 ≤ c.timestamp) && decide (c.timestamp ≤ 10 * 1000)) = [] ∧
    ¬ ((historyHandler ceDb "ZPHUSD" "1" 0 10 5).s = "no_data") := by
  refine ⟨?_, ?_, ?_⟩ <;> with_unfolding_all decide

/-- C5 (amended): the `no_data` response (with empty arrays, not an error) is produced
exactly when the whole query — the ranged query and its range-free fallback — comes back
empty (stated as a biconditional, for every request); whatever is returned is ordered by
timestamp ascending and bounded by the requested limit (unconditionally, so in particular
for every non-empty result), and the status is always `ok` or `no_data`, never an
error. -/
theorem history_no_data_and_order (db : List Candle) (symbol resolution : String)
    (fromS toS : ℤ) (countback : ℕ) :
    (historyHandler db symbol resolution fromS toS countback =
      { s := "no_data", t := [], o := [], h := [], l := [], c := [], v := [] } ↔
     getHistoricalCandles db symbol resolution fromS toS (min countback 1000) = []) ∧
    (getHistoricalCandles db symbol resolution fromS toS (min countback 1000)).Sorted
      candleLE ∧
    (getHistoricalCandles db symbol resolution fromS toS (min countback 1000)).length ≤
      min countback 1000 ∧
    ((historyHandler db symbol resolution fromS toS countback).s = "ok" ∨
     (historyHandler db symbol resolution fromS toS countback).s = "no_data") := by
  have hsorted : ∀ (l : List Candle) (n : ℕ),
      ((List.insertionSort candleLE l).take n).Sorted candleLE :=
    fun l n => (List.sorted_insertionSort candleLE l).sublist (List.take_sublist n _)
  have hlen : ∀ (l : List Candle) (n : ℕ), ((List.insertionSort candleLE l).take n).length ≤ n :=
    fun l n => by simp [List.length_take]
  refine ⟨⟨?_, ?_⟩, ?_, ?_, ?_⟩
  · intro h
    simp only [historyHandler] at h
    split at h
    · next hemp =>
      exact List.isEmpty_iff.mp hemp
    · next hemp =>
      simp at h
  · intro h
    simp [historyHandler, h]
  · simp only [getHistoricalCandles]
    split
    · exact hsorted _ _
    · exact hsorted _ _
  · simp only [getHistoricalCandles]
    split
    · exact hlen _ _
    · exact hlen _ _
  · simp only [historyHandler]
    split
    · right
      rfl
    · left
      rfl

/-- C5 (witness): the `no_data` direction of the biconditional exercised on an empty
table. -/
theorem history_no_data_and_order_witness :
    getHistoricalCandles [] "ZPHUSD" "1" 0 10 (min 5 1000) = [] ∧
    historyHandler [] "ZPHUSD" "1" 0 10 5 =
      { s := "no_data", t := [], o := [], h := [], l := [], c := [], v := [] } :=
  ⟨rfl, (history_no_data_and_order [] "ZPHUSD" "1" 0 10 5).1.mpr rfl⟩

/-! ### Claim C6 -/

/-- C6: every `updateMarketRegime` step either leaves the regime unchanged or moves it
along the cyclic edge `accumulation→markup→distribution→markdown→accumulation`, and on
any actual transition the momentum `currentTrend` resets to 0 and the per-regime candle
counter resets to 0. -/
theorem regime_transitions_cyclic (s : GenState) (now r1 r2 : ℚ) :
    (updateMarketRegime s now r1 r2).marketRegime = s.marketRegime ∨
    ((updateMarketRegime s now r1 r2).marketRegime = nextRegime s.marketRegime ∧
     (updateMarketRegime s now r1 r2).currentTrend = 0 ∧
     (updateMarketRegime s now r1 r2).regimeCandleCount = 0) := by
  rcases hreg : s.marketRegime <;>
  · simp only [updateMarketRegime, hreg]
    split_ifs <;>
      first
        | exact Or.inl rfl
        | exact Or.inr ⟨rfl, rfl, rfl⟩
        | (left; simp_all)

/-! ### Claim C9 -/

/-- C9: a manual-control request whose direction is outside `{up, down, neutral}` or whose
speed or intensity is outside the configured bounds (`[0,1]` and `[0,10]`) is rejected with
a 400 validation error and leaves the control store untouched.  (The route configures no
bounds for `duration_seconds`, so no request is ever out of duration bounds.) -/
theorem manual_control_validation (body : ManualControlBody) (st : ControlsState) (now : ℚ)
    (h : ¬(body.direction = "up" ∨ body.direction = "down" ∨ body.direction = "neutral") ∨
      body.speed < 0 ∨ body.speed > 1 ∨ body.intensity < 0 ∨ body.intensity > 10) :
    (manualControlHandler body st now).1.success = false ∧
    (manualControlHandler body st now).1.status = 400 ∧
    (manualControlHandler body st now).2 = st := by
  simp only [manualControlHandler]
  split_ifs with h1 h2 h3 <;>
    first
      | exact ⟨rfl, rfl, rfl⟩
      | (exfalso; tauto)

/-- C9 (witness): the rejection at a concrete invalid request (direction `"sideways"`). -/
theorem manual_control_validation_witness :
    (¬(ceBadBody.direction = "up" ∨ ceBadBody.direction = "down" ∨
        ceBadBody.direction = "neutral") ∨
      ceBadBody.speed < 0 ∨ ceBadBody.speed > 1 ∨
      ceBadBody.intensity < 0 ∨ ceBadBody.intensity > 10) ∧
    ((manualControlHandler ceBadBody ⟨[]⟩ 0).1.success = false ∧
     (manualControlHandler ceBadBody ⟨[]⟩ 0).1.status = 400 ∧
     (manualControlHandler ceBadBody ⟨[]⟩ 0).2 = ⟨[]⟩) :=
  ⟨by with_unfolding_all decide,
   manual_control_validation ceBadBody ⟨[]⟩ 0 (by with_unfolding_all decide)⟩

/-! ### Claim C10 -/

/-- C10: with an active manual control of direction `neutral`, the generation step is
computed entirely by the auto-mode algorithm (the whole candle and the whole post-step
state coincide with the no-control run on the same oracle draws), yet the candle's mode
field is `manual`, while the no-control run is `auto`. -/
theorem neutral_control_auto_path_manual_mode (s : GenState) (p : GenParams) (now : ℚ)
    (r : GenRands) :
    (generateCandle s { p with manualDirection := some Dir3.neutral } now r).1 =
      { (generateCandle s { p with manualDirection := none } now r).1 with
        mode := Mode.manual } ∧
    (generateCandle s { p with manualDirection := some Dir3.neutral } now r).2 =
      (generateCandle s { p with manualDirection := none } now r).2 ∧
    (generateCandle s { p with manualDirection := none } now r).1.mode = Mode.auto :=
  ⟨rfl, rfl, rfl⟩


/-- `addSR` keeps every strength in `[0,1]` when fed a nonnegative strength. -/
theorem addSR_bounds (price strength now : ℚ) (hstr : 0 ≤ strength) :
    ∀ (levels : List SRLevel),
      (∀ l ∈ levels, 0 ≤ l.strength ∧ l.strength ≤ 1) →
      ∀ l ∈ addSR levels price strength now, 0 ≤ l.strength ∧ l.strength ≤ 1
  | [], _ => by
    intro l hl
    simp only [addSR, List.mem_singleton] at hl
    subst hl
    exact ⟨le_min (by norm_num) hstr, min_le_left _ _⟩
  | lvl :: rest, hinv => by
    intro l hl
    have hhead := hinv lvl (by simp)
    have hrest : ∀ x ∈ rest, 0 ≤ x.strength ∧ x.strength ≤ 1 := fun x hx => hinv x (by simp [hx])
    simp only [addSR] at hl
    split at hl
    · rcases List.mem_cons.mp hl with h | h
      · subst h
        refine ⟨le_min (by norm_num) ?_, min_le_left _ _⟩
        nlinarith [hhead.1]
      · exact hrest l h
    · rcases List.mem_cons.mp hl with h | h
      · subst h
        exact hhead
      · exact addSR_bounds price strength now hstr rest hrest l h

/-- The `applySupportResistance` scan keeps every strength in `[0,1]` (touches leave
strength unchanged; breakouts multiply it by 0.7). -/
theorem applySRGo_bounds (current : ℚ) (dirPos : Bool) (now : ℚ) :
    ∀ (levels : List SRLevel) (target : ℚ) (rands : List (ℚ × ℚ)),
      (∀ l ∈ levels, 0 ≤ l.strength ∧ l.strength ≤ 1) →
      ∀ l ∈ (applySRGo current dirPos now levels target rands).2,
        0 ≤ l.strength ∧ l.strength ≤ 1
  | [], _, _, _ => by
    intro l hl
    simp [applySRGo] at hl
  | lvl :: rest, target, rands, hinv => by
    intro l hl
    have hhead := hinv lvl (by simp)
    have hrest : ∀ x ∈ rest, 0 ≤ x.strength ∧ x.strength ≤ 1 := fun x hx => hinv x (by simp [hx])
    have hih := applySRGo_bounds current dirPos now rest target rands.tail hrest
    have hbreak : ∀ x ∈ ({ lvl with strength := lvl.strength * 0.7 } ::
        (applySRGo current dirPos now rest target rands.tail).2),
        0 ≤ x.strength ∧ x.strength ≤ 1 := by
      intro x hx
      rcases List.mem_cons.mp hx with h | h
      · subst h
        constructor
        · nlinarith [hhead.1]
        · nlinarith [hhead.1, hhead.2]
      · exact hih x h
    simp only [applySRGo, apply_ite Prod.snd] at hl
    split at hl
    · rcases List.mem_cons.mp hl with h | h
      · subst h
        exact hhead
      · exact hrest l h
    · split at hl
      · split at hl
        · rcases List.mem_cons.mp hl with h | h
          · subst h
            exact hhead
          · exact hrest l h
        · exact hbreak l hl
      · split at hl
        · split at hl
          · rcases List.mem_cons.mp hl with h | h
            · subst h
              exact hhead
            · exact hrest l h
          · exact hbreak l hl
        · rcases List.mem_cons.mp hl with h | h
          · subst h
            exact hhead
          · exact hih l h

/-- The cap stage does not touch the level set. -/
theorem capStage_levels (s : GenState) (cp pc : ℚ) :
    ((capStage s cp pc).2).supportResistanceLevels = s.supportResistanceLevels := by
  simp only [capStage]
  split_ifs <;> rfl

/-- The moving-average stage does not touch the level set. -/
theorem maStage_levels (s : GenState) (cp pc : ℚ) :
    ((maStage s cp pc).2).supportResistanceLevels = s.supportResistanceLevels := by
  simp only [maStage]
  split_ifs <;> rfl

/-- `applyCircuitBreakers` does not touch the level set. -/
theorem applyCircuitBreakers_levels (s : GenState) (cp pc : ℚ) :
    ((applyCircuitBreakers s cp pc).2).supportResistanceLevels = s.supportResistanceLevels := by
  unfold applyCircuitBreakers
  rw [maStage_levels, capStage_levels]

/-- `triggerRandomEvent` does not touch the level set. -/
theorem triggerRandomEvent_levels (s : GenState) (cp rT rC rS : ℚ) :
    ((triggerRandomEvent s cp rT rC rS).2).supportResistanceLevels =
      s.supportResistanceLevels := by
  simp only [triggerRandomEvent]
  split_ifs <;> rfl

/-- `calculateTrendingMove` does not touch the level set. -/
theorem calculateTrendingMove_levels (s : GenState) (cp vol ts rM : ℚ) :
    ((calculateTrendingMove s cp vol ts rM).2).supportResistanceLevels =
      s.supportResistanceLevels := rfl

/-- `calculateRealisticPriceChange` does not touch the level set. -/
theorem calculateRealisticPriceChange_levels (s : GenState) (cp vol ts : ℚ) (r : GenRands) :
    ((calculateRealisticPriceChange s cp vol ts r).2).supportResistanceLevels =
      s.supportResistanceLevels := by
  simp only [calculateRealisticPriceChange]
  split_ifs <;>
    first
      | rfl
      | exact triggerRandomEvent_levels _ _ _ _ _
      | exact calculateTrendingMove_levels _ _ _ _ _

/-- `updateMarketRegime` does not touch the level set. -/
theorem updateMarketRegime_levels (s : GenState) (now r1 r2 : ℚ) :
    (updateMarketRegime s now r1 r2).supportResistanceLevels = s.supportResistanceLevels := by
  simp only [updateMarketRegime]
  split_ifs <;> rfl

/-- The bookkeeping prefix of a generation step does not touch the level set. -/
theorem gcPre_levels (s : GenState) (p : GenParams) (now : ℚ) (r : GenRands) :
    (gcPre s p now r).supportResistanceLevels = s.supportResistanceLevels := by
  simp only [gcPre]
  split_ifs
  · rw [updateMarketRegime_levels]
  · rfl

/-- The proposed-change computation does not touch the level set. -/
theorem gcProposed_levels (s : GenState) (p : GenParams) (now : ℚ) (r : GenRands) :
    ((gcProposed s p now r).2).supportResistanceLevels = s.supportResistanceLevels := by
  rcases hd : p.manualDirection with _ | d
  · simp only [gcProposed, hd]
    rw [calculateRealisticPriceChange_levels, gcPre_levels]
  · simp only [gcProposed, hd]
    split
    · rw [calculateRealisticPriceChange_levels, gcPre_levels]
    · rw [gcPre_levels]

/-- Up to `applySupportResistance`, a generation step sees the original level set. -/
theorem gcClamped_levels (s : GenState) (p : GenParams) (now : ℚ) (r : GenRands) :
    ((gcClamped s p now r).2).supportResistanceLevels = s.supportResistanceLevels := by
  simp only [gcClamped]
  rw [applyCircuitBreakers_levels, gcProposed_levels]

/-- The price returned by the `applySupportResistance` scan is at least
`0.01 × 0.998 = 0.00998` when the target and every level price are at least one cent. -/
theorem applySRGo_price_lb (current : ℚ) (dirPos : Bool) (now : ℚ) :
    ∀ (levels : List SRLevel) (target : ℚ) (rands : List (ℚ × ℚ)),
      (∀ l ∈ levels, (1/100 : ℚ) ≤ l.price) → (1/100 : ℚ) ≤ target →
      (499/50000 : ℚ) ≤ (applySRGo current dirPos now levels target rands).1
  | [], target, rands, _, ht => by
    simp only [applySRGo]
    linarith
  | lvl :: rest, target, rands, hl, ht => by
    have hlp := hl lvl (by simp)
    have hrest : ∀ x ∈ rest, (1/100 : ℚ) ≤ x.price := fun x hx => hl x (by simp [hx])
    have hih := applySRGo_price_lb current dirPos now rest target rands.tail hrest ht
    simp only [applySRGo, apply_ite Prod.fst]
    split
    · linarith
    · split
      · split
        · nlinarith
        · exact hih
      · split
        · split
          · nlinarith
          · exact hih
        · exact hih

/-- Wick bounds of `generateRealisticHighLow` under nonnegative oracle draws. -/
theorem generateRealisticHighLow_bounds (open_ close vol rW rH rL : ℚ)
    (hrw : 0 ≤ rW) (hrh : 0 ≤ rH) (hrl : 0 ≤ rL) :
    max open_ close ≤ (generateRealisticHighLow open_ close vol rW rH rL).1 ∧
    (generateRealisticHighLow open_ close vol rW rH rL).2 ≤ max 0.01 (min open_ close) ∧
    0.01 ≤ (generateRealisticHighLow open_ close vol rW rH rL).2 := by
  unfold generateRealisticHighLow
  have hmw : 0 ≤ max |close - open_| (max open_ close * vol * 0.3) * (0.5 + rW * 1.5) := by
    apply mul_nonneg
    · exact le_trans (abs_nonneg _) (le_max_left _ _)
    · linarith
  refine ⟨?_, ?_, ?_⟩
  · have h1 : 0 ≤ rH * (max |close - open_| (max open_ close * vol * 0.3) * (0.5 + rW * 1.5)) :=
      mul_nonneg hrh hmw
    linarith
  · have h1 : 0 ≤ rL * (max |close - open_| (max open_ close * vol * 0.3) * (0.5 + rW * 1.5)) :=
      mul_nonneg hrl hmw
    exact max_le_max (le_refl _) (by linarith)
  · exact le_max_left _ _

/-- Members of `takeLastN` are members of the list. -/
theorem takeLastN_subset (n : ℕ) (l : List SRLevel) : ∀ x ∈ takeLastN n l, x ∈ l := by
  intro x hx
  exact List.drop_subset _ l hx

/-- `takeLastN n` returns at most `n` elements. -/
theorem takeLastN_length_le (n : ℕ) (l : List SRLevel) : (takeLastN n l).length ≤ n := by
  unfold takeLastN
  rw [List.length_drop]
  omega

/-- `takeLastN` keeps a suffix: eviction removes the oldest elements first. -/
theorem takeLastN_suffix (n : ℕ) (l : List SRLevel) : takeLastN n l <:+ l :=
  List.drop_suffix _ l

/-- The round-number registration fold keeps every strength in `[0,1]`. -/
theorem foldlRound_bounds (close now : ℚ) :
    ∀ (Ls : List ℚ) (levels : List SRLevel),
      (∀ l ∈ levels, 0 ≤ l.strength ∧ l.strength ≤ 1) →
      ∀ l ∈ Ls.foldl
        (fun ls L => if |close - L| / L < 0.05 then addSR ls L 0.8 now else ls) levels,
        0 ≤ l.strength ∧ l.strength ≤ 1
  | [], levels, hinv => by
    simpa using hinv
  | L :: Ls, levels, hinv => by
    have hstep : ∀ l ∈ (if |close - L| / L < 0.05 then addSR levels L 0.8 now else levels),
        0 ≤ l.strength ∧ l.strength ≤ 1 := by
      split
      · exact addSR_bounds L 0.8 now (by norm_num) levels hinv
      · exact hinv
    simpa [List.foldl_cons] using foldlRound_bounds close now Ls _ hstep

/-- All level registrations of `updateSupportResistance` keep strengths in `[0,1]`. -/
theorem updateSRNewLevels_bounds (s : GenState) (high low close now : ℚ)
    (hinv : ∀ l ∈ s.supportResistanceLevels, 0 ≤ l.strength ∧ l.strength ≤ 1) :
    ∀ l ∈ updateSRNewLevels s high low close now, 0 ≤ l.strength ∧ l.strength ≤ 1 := by
  unfold updateSRNewLevels
  apply foldlRound_bounds
  have h1 : ∀ l ∈ (match (takeLastN 20 s.recentHighs).max? with
      | none => addSR s.supportResistanceLevels high 0.6 now
      | some m => if high ≥ m then addSR s.supportResistanceLevels high 0.6 now
                  else s.supportResistanceLevels),
      0 ≤ l.strength ∧ l.strength ≤ 1 := by
    rcases (takeLastN 20 s.recentHighs).max? with _ | m
    · exact addSR_bounds high 0.6 now (by norm_num) _ hinv
    · dsimp only
      split
      · exact addSR_bounds high 0.6 now (by norm_num) _ hinv
      · exact hinv
  rcases (takeLastN 20 s.recentLows).min? with _ | m
  · exact addSR_bounds low 0.6 now (by norm_num) _ h1
  · dsimp only
    split
    · exact addSR_bounds low 0.6 now (by norm_num) _ h1
    · exact h1

/-! ### Claim C3 -/

/-- C3: every generated candle satisfies `low ≤ min(open, close) ≤ max(open, close) ≤ high`
and `close > 0`, provided the step's previous close and all tracked level prices are at
least one cent (both hold for every candle the engine itself produces, since closes are
floored at 0.01) and the wick oracle draws are nonnegative (true for `Math.random()`). -/
theorem candle_ohlc_invariant (s : GenState) (p : GenParams) (now : ℚ) (r : GenRands)
    (hprev : (1/100 : ℚ) ≤ prevCloseOf s p)
    (hlevels : ∀ l ∈ s.supportResistanceLevels, (1/100 : ℚ) ≤ l.price)
    (hrw : 0 ≤ r.rWickMult) (hrh : 0 ≤ r.rHighWick) (hrl : 0 ≤ r.rLowWick) :
    (generateCandle s p now r).1.low ≤
      min (generateCandle s p now r).1.open_ (generateCandle s p now r).1.close ∧
    min (generateCandle s p now r).1.open_ (generateCandle s p now r).1.close ≤
      max (generateCandle s p now r).1.open_ (generateCandle s p now r).1.close ∧
    max (generateCandle s p now r).1.open_ (generateCandle s p now r).1.close ≤
      (generateCandle s p now r).1.high ∧
    0 < (generateCandle s p now r).1.close := by
  have hc1 : (499/50000 : ℚ) ≤ (gcSR s p now r).1 := by
    have hmax : (1/100 : ℚ) ≤ gcClose0 s p now r := by
      have h := le_max_left (0.01 : ℚ) (prevCloseOf s p + (gcClamped s p now r).1)
      unfold gcClose0
      linarith [h]
    unfold gcSR applySupportResistance
    rw [gcClamped_levels]
    exact applySRGo_price_lb _ _ _ _ _ _ hlevels hmax
  obtain ⟨hH, hL, hLf⟩ := generateRealisticHighLow_bounds (prevCloseOf s p) ((gcSR s p now r).1)
    (p.volatility.getD s.volatility) r.rWickMult r.rHighWick r.rLowWick hrw hrh hrl
  show roundPrice (generateRealisticHighLow (prevCloseOf s p) ((gcSR s p now r).1)
        (p.volatility.getD s.volatility) r.rWickMult r.rHighWick r.rLowWick).2 ≤
      min (roundPrice (prevCloseOf s p)) (roundPrice ((gcSR s p now r).1)) ∧
    min (roundPrice (prevCloseOf s p)) (roundPrice ((gcSR s p now r).1)) ≤
      max (roundPrice (prevCloseOf s p)) (roundPrice ((gcSR s p now r).1)) ∧
    max (roundPrice (prevCloseOf s p)) (roundPrice ((gcSR s p now r).1)) ≤
      roundPrice (generateRealisticHighLow (prevCloseOf s p) ((gcSR s p now r).1)
        (p.volatility.getD s.volatility) r.rWickMult r.rHighWick r.rLowWick).1 ∧
    0 < roundPrice ((gcSR s p now r).1)
  set o := prevCloseOf s p with ho
  set c1 := (gcSR s p now r).1 with hc1def
  set hl2 := generateRealisticHighLow o c1 (p.volatility.getD s.volatility)
    r.rWickMult r.rHighWick r.rLowWick with hhl
  refine ⟨?_, ?_, ?_, ?_⟩
  · refine le_min ?_ ?_
    · apply roundPrice_mono
      have h1 : max (0.01 : ℚ) (min o c1) ≤ o := max_le (by linarith) (min_le_left o c1)
      linarith
    · by_cases hcase : (1/100 : ℚ) ≤ c1
      · apply roundPrice_mono
        have h1 : max (0.01 : ℚ) (min o c1) ≤ c1 := max_le (by linarith) (min_le_right o c1)
        linarith
      · push_neg at hcase
        have hmin : min o c1 = c1 := min_eq_right (by linarith)
        have hup : hl2.2 ≤ (0.01 : ℚ) := by
          rw [hmin] at hL
          exact le_trans hL (max_le (le_refl _) (by linarith))
        have heq : hl2.2 = (0.01 : ℚ) := le_antisymm hup hLf
        have hlow_eq : roundPrice hl2.2 = 1/100 := by
          rw [heq]
          exact roundPrice_eq_cent (by norm_num) (by norm_num)
        have hc1_eq : roundPrice c1 = 1/100 := roundPrice_eq_cent hc1 (by linarith)
        rw [hlow_eq, hc1_eq]
  · exact min_le_max
  · exact max_le (roundPrice_mono (le_trans (le_max_left o c1) hH))
      (roundPrice_mono (le_trans (le_max_right o c1) hH))
  · exact lt_of_lt_of_le (by norm_num) (roundPrice_lb hc1)

/-- C3 (witness): the OHLC invariant at the initial state with previous close 10 and all
oracle draws zero. -/
theorem candle_ohlc_invariant_witness :
    ((1/100 : ℚ) ≤ prevCloseOf (initialState 0) { previousCandle := some cePrev10 } ∧
     (∀ l ∈ (initialState 0).supportResistanceLevels, (1/100 : ℚ) ≤ l.price) ∧
     (0 : ℚ) ≤ ({} : GenRands).rWickMult ∧ (0 : ℚ) ≤ ({} : GenRands).rHighWick ∧
     (0 : ℚ) ≤ ({} : GenRands).rLowWick) ∧
    ((generateCandle (initialState 0) { previousCandle := some cePrev10 } 0 {}).1.low ≤
      min (generateCandle (initialState 0) { previousCandle := some cePrev10 } 0 {}).1.open_
        (generateCandle (initialState 0) { previousCandle := some cePrev10 } 0 {}).1.close ∧
     min (generateCandle (initialState 0) { previousCandle := some cePrev10 } 0 {}).1.open_
        (generateCandle (initialState 0) { previousCandle := some cePrev10 } 0 {}).1.close ≤
      max (generateCandle (initialState 0) { previousCandle := some cePrev10 } 0 {}).1.open_
        (generateCandle (initialState 0) { previousCandle := some cePrev10 } 0 {}).1.close ∧
     max (generateCandle (initialState 0) { previousCandle := some cePrev10 } 0 {}).1.open_
        (generateCandle (initialState 0) { previousCandle := some cePrev10 } 0 {}).1.close ≤
      (generateCandle (initialState 0) { previousCandle := some cePrev10 } 0 {}).1.high ∧
     0 < (generateCandle (initialState 0) { previousCandle := some cePrev10 } 0 {}).1.close) :=
  ⟨⟨by with_unfolding_all decide, by with_unfolding_all decide,
    by decide, by decide, by decide⟩,
   candle_ohlc_invariant (initialState 0) { previousCandle := some cePrev10 } 0 {}
     (by with_unfolding_all decide) (by with_unfolding_all decide)
     (by decide) (by decide) (by decide)⟩

/-! ### Claim C7 -/

/-- C7: support/resistance level strengths stay within `[0,1]` under every operation that
touches them (`addSupportResistance`, the `applySupportResistance` scan, and
`updateSupportResistance`); after each update no surviving level has strength below the
0.2 floor and at most 15 levels remain, the survivors being a suffix of the pruned set
(oldest evicted first); and a touch without a break strictly increases the touched level's
`touches` count (both in `addSupportResistance` and in the magnet path of
`applySupportResistance`). -/
theorem sr_levels_invariant :
    (∀ (levels : List SRLevel) (price strength now : ℚ),
      (∀ l ∈ levels, 0 ≤ l.strength ∧ l.strength ≤ 1) → 0 ≤ strength →
      ∀ l ∈ addSR levels price strength now, 0 ≤ l.strength ∧ l.strength ≤ 1) ∧
    (∀ (levels : List SRLevel) (targetPrice currentPrice now : ℚ) (rands : List (ℚ × ℚ)),
      (∀ l ∈ levels, 0 ≤ l.strength ∧ l.strength ≤ 1) →
      ∀ l ∈ (applySupportResistance levels targetPrice currentPrice now rands).2,
        0 ≤ l.strength ∧ l.strength ≤ 1) ∧
    (∀ (s : GenState) (high low close now : ℚ),
      (∀ l ∈ s.supportResistanceLevels, 0 ≤ l.strength ∧ l.strength ≤ 1) →
      (∀ l ∈ (updateSupportResistance s high low close now).supportResistanceLevels,
        (0 ≤ l.strength ∧ l.strength ≤ 1) ∧ 0.2 < l.strength) ∧
      (updateSupportResistance s high low close now).supportResistanceLevels.length ≤ 15 ∧
      (updateSupportResistance s high low close now).supportResistanceLevels <:+
        ((updateSRNewLevels s high low close now).filter (fun l => l.strength > 0.2))) ∧
    (∀ (lvl : SRLevel) (rest : List SRLevel) (price strength now : ℚ),
      |lvl.price - price| / price < 0.02 →
      addSR (lvl :: rest) price strength now =
        { lvl with strength := min 1 (lvl.strength + strength * 0.2),
                   touches := lvl.touches + 1, lastTouch := now } :: rest) ∧
    (∀ (lvl : SRLevel) (rest : List SRLevel) (current now target r1 r2 : ℚ)
      (rands : List (ℚ × ℚ)) (dirPos : Bool),
      |target - lvl.price| / lvl.price < 0.01 → lvl.strength > 0.5 →
      r1 < lvl.strength * 0.5 →
      applySRGo current dirPos now (lvl :: rest) target ((r1, r2) :: rands) =
        (lvl.price, { lvl with touches := lvl.touches + 1, lastTouch := now } :: rest)) := by
  refine ⟨?_, ?_, ?_, ?_, ?_⟩
  · intro levels price strength now hinv hstr
    exact addSR_bounds price strength now hstr levels hinv
  · intro levels targetPrice currentPrice now rands hinv
    exact applySRGo_bounds currentPrice _ now levels targetPrice rands hinv
  · intro s high low close now hinv
    refine ⟨?_, takeLastN_length_le _ _, takeLastN_suffix _ _⟩
    intro l hl
    have hmem := takeLastN_subset _ _ l hl
    have hfil := List.mem_filter.mp hmem
    refine ⟨updateSRNewLevels_bounds s high low close now hinv l hfil.1, ?_⟩
    exact of_decide_eq_true hfil.2
  · intro lvl rest price strength now h
    simp only [addSR]
    rw [if_pos h]
  · intro lvl rest current now target r1 r2 rands dirPos h1 h2 h3
    have hcond : |target - lvl.price| / lvl.price < 0.01 ∧ lvl.strength > 0.5 ∧
        (((r1, r2) :: rands).headD (1, 1)).1 < lvl.strength * 0.5 :=
      ⟨h1, h2, by simpa using h3⟩
    simp only [applySRGo, if_pos hcond]

/-- C7 (witness): strength bounds after adding a fresh level at the base price. -/
theorem sr_levels_invariant_witness :
    ((∀ l ∈ ([] : List SRLevel), 0 ≤ l.strength ∧ l.strength ≤ 1) ∧ (0 : ℚ) ≤ 1) ∧
    (∀ l ∈ addSR [] 10 1 0, 0 ≤ l.strength ∧ l.strength ≤ 1) :=
  ⟨⟨by simp, by decide⟩, sr_levels_invariant.1 [] 10 1 0 (by simp) (by decide)⟩

end Zypher
